import Mathlib

/-!
Shallow embedding of the two notebooks of this repository:
the LangGraph pipeline of `langsmith_basics.ipynb` (state record,
`wikipedia_search`, the three nodes `decide_search_need`,
`execute_search`, `generate_response`, and the compiled linear
workflow `simple_agent`), and the Anchor browser-automation script.
External effects (the LLM, the two Wikipedia HTTP GETs, the Anchor
cloud API) are modelled as oracles; a Python exception is an
`Except.error` carrying the stringified exception.
-/

set_option autoImplicit false

namespace Langsmith

/-! Python string primitives used by the notebook code. -/

/-- Whitespace characters removed by Python `str.strip()` (ASCII fragment). -/
def pyIsSpace (c : Char) : Bool :=
  c = ' ' || c = '\t' || c = '\r' || c = '\n'

def pyStripList (l : List Char) : List Char :=
  ((l.dropWhile pyIsSpace).reverse.dropWhile pyIsSpace).reverse

/-- Embedding of Python `s.strip()`: drop leading and trailing whitespace. -/
def pyStrip (s : String) : String :=
  ⟨pyStripList s.data⟩

def pySplitNlList : List Char → List (List Char)
  | [] => [[]]
  | c :: rest =>
    if c = '\n' then [] :: pySplitNlList rest
    else
      match pySplitNlList rest with
      | l :: ls => (c :: l) :: ls
      | [] => [[c]]

/-- Embedding of Python `s.split('\n')`: split on every newline, keeping
empty pieces; the empty string yields `[""]`. -/
def pySplitNl (s : String) : List String :=
  (pySplitNlList s.data).map (fun l => ⟨l⟩)

def listStartsWith : List Char → List Char → Bool
  | [], _ => true
  | _ :: _, [] => false
  | a :: as, b :: bs => a == b && listStartsWith as bs

def listContainsSub (needle : List Char) : List Char → Bool
  | [] => listStartsWith needle []
  | c :: rest => listStartsWith needle (c :: rest) || listContainsSub needle rest

/-- Embedding of Python `needle in hay` for strings: contiguous substring test. -/
def pyContains (needle hay : String) : Bool :=
  listContainsSub needle.data hay.data

/-- Embedding of Python `s[:n]`: the first `n` characters of `s`. -/
def pySlice (s : String) (n : Nat) : String :=
  ⟨s.data.take n⟩

/-! The pipeline state: `class AgentState(TypedDict)` of the notebook. -/

structure AgentState where
  user_question : String
  needs_search : Bool
  search_result : String
  final_answer : String
  reasoning : String
  deriving DecidableEq

/-- The initial state built by `run_test_with_observability` for a question. -/
def initial_state (question : String) : AgentState :=
  { user_question := question
    needs_search := false
    search_result := ""
    final_answer := ""
    reasoning := "" }

def test_initial_state : AgentState := initial_state "What is the capital of France?"

/-! The Wikipedia search tool.  The behaviour of the outside world (the two
`requests.get` calls and the JSON decoding of their bodies) is an oracle
`WikiWorld`; `Except.error e` stands for a raised Python exception whose
`str` is `e`. -/

/-- One entry of `data.get('query', {}).get('search', [])`; `title = none`
models an entry without a `'title'` key, so that `top_result['title']`
raises `KeyError`. -/
structure SearchHit where
  title : Option String
  deriving DecidableEq

/-- The decoded body of the page-summary response; `extract = none` models a
body without an `'extract'` key (covered by `.get` with a default). -/
structure PageSummary where
  extract : Option String
  deriving DecidableEq

/-- Oracle for one call of `wikipedia_search`: outcome of the search-API GET
(status code or raised exception), of decoding its body, of the summary GET,
and of decoding the summary body. -/
structure WikiWorld where
  searchResp : Except String Nat
  searchJson : Except String (List SearchHit)
  summaryResp : Except String Nat
  summaryJson : Except String PageSummary

/-- HTTP requests that `wikipedia_search` can issue. -/
inductive Req where
  | searchApi
  | pageSummary
  deriving DecidableEq

/-- The body of `wikipedia_search` inside the `try:` block, together with the
list of HTTP GET requests attempted, in order.  `Except.error` is a Python
exception escaping the body (to be caught by the `except` clause). -/
def wikipedia_searchBody (w : WikiWorld) (query : String) :
    Except String String × List Req :=
  match w.searchResp with
  | .error e => (.error e, [Req.searchApi])
  | .ok status =>
    if status = 200 then
      match w.searchJson with
      | .error e => (.error e, [Req.searchApi])
      | .ok search_results =>
        match search_results with
        | [] => (.ok ("No Wikipedia articles found for '" ++ query ++ "'"), [Req.searchApi])
        | top_result :: _ =>
          match top_result.title with
          | none => (.error "'title'", [Req.searchApi])
          | some page_title =>
            match w.summaryResp with
            | .error e => (.error e, [Req.searchApi, Req.pageSummary])
            | .ok sstatus =>
              if sstatus = 200 then
                match w.summaryJson with
                | .error e => (.error e, [Req.searchApi, Req.pageSummary])
                | .ok summary_data =>
                  let extract := summary_data.extract.getD "No summary available"
                  (.ok ("Found information about '" ++ page_title ++ "': "
                          ++ pySlice extract 400 ++ "..."),
                   [Req.searchApi, Req.pageSummary])
              else
                (.ok ("Found '" ++ page_title ++ "' but couldn't retrieve summary"),
                 [Req.searchApi, Req.pageSummary])
    else
      (.ok ("Wikipedia search failed with status " ++ Nat.repr status), [Req.searchApi])

/-- The full `wikipedia_search` tool: its body wrapped in
`try: ... except Exception as e: return f"Search error: {str(e)}"`. -/
def wikipedia_search (w : WikiWorld) (query : String) : String × List Req :=
  match wikipedia_searchBody w query with
  | (.ok s, reqs) => (s, reqs)
  | (.error e, reqs) => ("Search error: " ++ e, reqs)

/-! The LLM and the pipeline nodes.  `Oracle.llm` maps the content of the
single `SystemMessage` sent by `llm.invoke` to `response.content`; the same
`llm` object serves both the decide and the respond step. -/

/-- Observable events of one pipeline invocation. -/
inductive Event where
  | llmCall
  | httpGet (r : Req)
  deriving DecidableEq

def isLlmCall : Event → Bool
  | .llmCall => true
  | .httpGet _ => false

def isHttpGet : Event → Bool
  | .llmCall => false
  | .httpGet _ => true

structure Oracle where
  llm : String → String
  wiki : WikiWorld

/-- The `decision_prompt` f-string of `decide_search_need`, character for
character (a triple-quoted literal, so it keeps its newlines and the
four-space indentation of the notebook cell). -/
def decision_prompt (user_question : String) : String :=
  "\n    Analyze this question and decide if it requires current/recent information that might not be in your training data:\n    \n    Question: \""
    ++ user_question
    ++ "\"\n    \n    Consider:\n    - Does this ask about recent events, current prices, or breaking news?\n    - Does this ask about people, companies, or topics that change frequently?\n    - Can you answer this well using your existing knowledge?\n    \n    Respond with exactly \"SEARCH\" if you need current information, or \"DIRECT\" if you can answer directly.\n    Then on a new line, briefly explain your reasoning.\n    "

/-- Node 1, `decide_search_need`: one LLM call, then the naive parse
`decision_text = response.content.strip()`, `lines = decision_text.split('\n')`,
`decision = lines[0].strip()`, `reasoning = lines[1] if len(lines) > 1 else
"No reasoning provided"`, writing `needs_search` and `reasoning`. -/
def decide_search_need (o : Oracle) (state : AgentState) : AgentState × List Event :=
  let user_question := state.user_question
  let decision_text := pyStrip (o.llm (decision_prompt user_question))
  let lines := pySplitNl decision_text
  let decision := pyStrip (lines.headD "")
  let reasoning :=
    match lines with
    | _ :: r :: _ => r
    | _ => "No reasoning provided"
  ({ state with
      needs_search := decision == "SEARCH"
      reasoning := "Decision: " ++ decision ++ ". Reasoning: " ++ reasoning },
   [Event.llmCall])

/-- Node 2, `execute_search`: skip (writing `"No search performed"`) when
`needs_search` is false, otherwise invoke the Wikipedia tool and store its
returned string. -/
def execute_search (o : Oracle) (state : AgentState) : AgentState × List Event :=
  if !state.needs_search then
    ({ state with search_result := "No search performed" }, [])
  else
    let res := wikipedia_search o.wiki state.user_question
    ({ state with search_result := res.1 }, res.2.map Event.httpGet)

def response_context (user_question search_result : String) : String :=
  "Question: " ++ user_question ++ "\n\nSearch Results: " ++ search_result

/-- The `response_prompt` built by `generate_response` in the branch
`used_search and "Search error" not in search_result`. -/
def response_prompt_with_search (user_question search_result : String) : String :=
  "\n        Answer the user's question using both your knowledge and the search results provided.\n        \n        "
    ++ response_context user_question search_result
    ++ "\n        \n        Provide a helpful, accurate response that synthesizes the information.\n        "

/-- The `response_prompt` built by `generate_response` in the `else` branch. -/
def response_prompt_direct (user_question : String) : String :=
  "\n        Answer this question using your existing knowledge:\n        \n        "
    ++ user_question
    ++ "\n        \n        Provide a helpful, accurate response.\n        "

/-- The prompt-construction part of `generate_response`. -/
def response_prompt (state : AgentState) : String :=
  let user_question := state.user_question
  let search_result := state.search_result
  let used_search := state.needs_search
  if used_search && !(pyContains "Search error" search_result) then
    response_prompt_with_search user_question search_result
  else
    response_prompt_direct user_question

/-- Node 3, `generate_response`: build the prompt, make the second LLM call,
and store its content in `final_answer`. -/
def generate_response (o : Oracle) (state : AgentState) : AgentState × List Event :=
  ({ state with final_answer := o.llm (response_prompt state) }, [Event.llmCall])

/-! The compiled workflow.  The notebook declares a `StateGraph` with nodes
`decide`, `search`, `respond`, entry point `decide`, and the unconditional
edges `decide → search → respond → END`; `runGraph` is the evident
sequential executor of such a graph (apply the current node, follow its
single outgoing edge, stop at `END`), with a fuel bound in place of the
library's recursion limit. -/

inductive GNode where
  | decide
  | search
  | respond
  | END
  deriving DecidableEq

/-- `workflow.set_entry_point("decide")`. -/
def workflow_entry : GNode := GNode.decide

/-- The three `workflow.add_edge` calls, read as a successor map. -/
def workflow_edge : GNode → GNode
  | .decide => .search
  | .search => .respond
  | .respond => .END
  | .END => .END

/-- The three `workflow.add_node` bindings. -/
def workflow_node (o : Oracle) : GNode → AgentState → AgentState × List Event
  | .decide => decide_search_need o
  | .search => execute_search o
  | .respond => generate_response o
  | .END => fun s => (s, [])

/-- Sequential graph execution: the final state, the list of nodes executed
in order, and the event trace. -/
def runGraph (o : Oracle) : Nat → GNode → AgentState → AgentState × List GNode × List Event
  | 0, _, s => (s, [], [])
  | fuel + 1, node, s =>
    match node with
    | GNode.END => (s, [], [])
    | n =>
      let r := workflow_node o n s
      let rest := runGraph o fuel (workflow_edge n) r.1
      (rest.1, n :: rest.2.1, r.2 ++ rest.2.2)

/-- `simple_agent = workflow.compile()`, invoked on a state: run the graph
from the entry point (three nodes, then `END`). -/
def simple_agent (o : Oracle) (s : AgentState) : AgentState × List GNode × List Event :=
  runGraph o 3 workflow_entry s

/-- The five pipeline fields, as a bare tuple. -/
def stateToTuple (s : AgentState) : String × Bool × String × String × String :=
  (s.user_question, s.needs_search, s.search_result, s.final_answer, s.reasoning)

/-! Concrete oracles used to instantiate the theorems below. -/

/-- An LLM that answers the decision prompt with a leading newline before the
`SEARCH` token, and a Wikipedia world in which both GETs succeed. -/
def newlineSearchOracle : Oracle :=
  { llm := fun _ => "\nSEARCH"
    wiki :=
      { searchResp := .ok 200
        searchJson := .ok [{ title := some "Artificial intelligence" }]
        summaryResp := .ok 200
        summaryJson := .ok { extract := some "AI is intelligence of machines." } } }

/-- An LLM that decides to search, over a fully successful Wikipedia world. -/
def successOracle : Oracle :=
  { llm := fun _ => "SEARCH\nneeds current information"
    wiki :=
      { searchResp := .ok 200
        searchJson := .ok [{ title := some "Artificial intelligence" }]
        summaryResp := .ok 200
        summaryJson := .ok { extract := some "AI is intelligence of machines." } } }

/-- An LLM that decides to search, over a world in which the first
`requests.get` raises a connection error. -/
def failingOracle : Oracle :=
  { llm := fun _ => "SEARCH\nthe question asks about current events"
    wiki :=
      { searchResp := .error "Connection timed out"
        searchJson := .ok []
        summaryResp := .ok 200
        summaryJson := .ok { extract := none } } }

/-- A state in which the decide step has already chosen to search. -/
def searchingState : AgentState :=
  { user_question := "What happened in the 2024 US presidential election?"
    needs_search := true
    search_result := ""
    final_answer := ""
    reasoning := "" }

end Langsmith

namespace Anchor

/-! The Anchor browser-automation notebook: one `requests.post` creating a
cloud browser session, a CDP connection, the lookup of Anchor's AI-agent
service worker (raising when absent), one `page.goto` to the resume, and one
`ai_agent.evaluate(json.dumps(task_configuration))`.  The cloud side is an
oracle `AnchorWorld`; `Except.error e` is a raised Python exception. -/

def ai_agent_url : String :=
  "chrome-extension://bppehibnhionalpjigdjdilknbljaeai/background.js"

def resume_url : String := "https://www.wix.com/demone2/nicol-rider"

/-- The `task_configuration` dict passed (JSON-serialized) to
`ai_agent.evaluate`; its `prompt` is the one natural-language instruction. -/
structure TaskConfiguration where
  prompt : String
  provider : String
  model : String
  highlight_elements : Bool
  deriving DecidableEq

def task_configuration : TaskConfiguration :=
  { prompt :=
      "Read the resume on this page, understand the personal details, and complete the form at https://formspree.io/library/donation/charity-donation-form/preview.html as if you were this person. Use appropriate information from the resume to fill out personal details. Limit the donation amount to $10."
    provider := "openai"
    model := "gpt-4"
    highlight_elements := true }

/-- Outward actions of the local script, in program order. -/
inductive AnchorEvent where
  | sessionPost
  | cdpConnect (url : String)
  | pageGoto (url : String)
  | taskSubmit (cfg : TaskConfiguration)
  deriving DecidableEq

def isSessionPost : AnchorEvent → Bool
  | .sessionPost => true
  | _ => false

def isTaskSubmit : AnchorEvent → Bool
  | .taskSubmit _ => true
  | _ => false

/-- Oracle for one run of the script: the `data.cdp_url` / `data.id` fields
of the session-creation response when present (`none` models a body on which
`session_data['data']['cdp_url']` raises `KeyError`), the URLs of the service
workers found in the browser context, and the string returned by the remote
AI agent. -/
structure AnchorWorld where
  sessionBody : Option (String × String)
  serviceWorkers : List String
  agentResult : String

/-- The linear script of the notebook: POST the session, parse the response,
connect over CDP, look up the AI-agent service worker (raising
`Exception("AI agent not found in browser context")` when it is absent,
before any task is issued), navigate to the resume, and submit the one task.
Returns the outcome and the ordered list of outward actions. -/
def anchor_script (w : AnchorWorld) : Except String String × List AnchorEvent :=
  match w.sessionBody with
  | none => (.error "'data'", [AnchorEvent.sessionPost])
  | some (cdp_url, _id) =>
    if ai_agent_url ∈ w.serviceWorkers then
      (.ok w.agentResult,
       [AnchorEvent.sessionPost, AnchorEvent.cdpConnect cdp_url,
        AnchorEvent.pageGoto resume_url, AnchorEvent.taskSubmit task_configuration])
    else
      (.error "AI agent not found in browser context",
       [AnchorEvent.sessionPost, AnchorEvent.cdpConnect cdp_url])

end Anchor

namespace Langsmith

/-! Helper lemmas about the graph runner and the search tool. -/

theorem runGraph_end (o : Oracle) (m : Nat) (st : AgentState) :
    runGraph o m GNode.END st = (st, [], []) := by
  cases m <;> rfl

theorem runGraph_decide (o : Oracle) (fuel : Nat) (s : AgentState) :
    runGraph o (fuel + 1) GNode.decide s
      = ((runGraph o fuel GNode.search (decide_search_need o s).1).1,
         GNode.decide :: (runGraph o fuel GNode.search (decide_search_need o s).1).2.1,
         (decide_search_need o s).2
           ++ (runGraph o fuel GNode.search (decide_search_need o s).1).2.2) := rfl

theorem runGraph_search (o : Oracle) (fuel : Nat) (s : AgentState) :
    runGraph o (fuel + 1) GNode.search s
      = ((runGraph o fuel GNode.respond (execute_search o s).1).1,
         GNode.search :: (runGraph o fuel GNode.respond (execute_search o s).1).2.1,
         (execute_search o s).2
           ++ (runGraph o fuel GNode.respond (execute_search o s).1).2.2) := rfl

theorem runGraph_respond (o : Oracle) (fuel : Nat) (s : AgentState) :
    runGraph o (fuel + 1) GNode.respond s
      = ((runGraph o fuel GNode.END (generate_response o s).1).1,
         GNode.respond :: (runGraph o fuel GNode.END (generate_response o s).1).2.1,
         (generate_response o s).2
           ++ (runGraph o fuel GNode.END (generate_response o s).1).2.2) := rfl

theorem simple_agent_eq (o : Oracle) (s : AgentState) :
    simple_agent o s
      = ((generate_response o (execute_search o (decide_search_need o s).1).1).1,
         [GNode.decide, GNode.search, GNode.respond],
         (decide_search_need o s).2
           ++ ((execute_search o (decide_search_need o s).1).2
                ++ (generate_response o (execute_search o (decide_search_need o s).1).1).2)) := by
  show runGraph o (0 + 1 + 1 + 1) GNode.decide s = _
  rw [runGraph_decide, runGraph_search, runGraph_respond, runGraph_end]
  simp

theorem runGraph_three (o : Oracle) (k : Nat) (s : AgentState) :
    runGraph o (k + 3) workflow_entry s = simple_agent o s := by
  show runGraph o (k + 1 + 1 + 1) GNode.decide s = _
  rw [runGraph_decide, runGraph_search, runGraph_respond, runGraph_end, simple_agent_eq]
  simp

theorem decide_search_need_user_question (o : Oracle) (s : AgentState) :
    (decide_search_need o s).1.user_question = s.user_question := rfl

theorem decide_search_need_trace (o : Oracle) (s : AgentState) :
    (decide_search_need o s).2 = [Event.llmCall] := rfl

theorem generate_response_trace (o : Oracle) (s : AgentState) :
    (generate_response o s).2 = [Event.llmCall] := rfl

theorem wikipedia_search_snd (w : WikiWorld) (q : String) :
    (wikipedia_search w q).2 = (wikipedia_searchBody w q).2 := by
  unfold wikipedia_search
  rcases hb : wikipedia_searchBody w q with ⟨r, reqs⟩
  cases r <;> rfl

theorem wikipedia_searchBody_reqs (w : WikiWorld) (q : String) :
    (wikipedia_searchBody w q).2 = [Req.searchApi]
    ∨ (wikipedia_searchBody w q).2 = [Req.searchApi, Req.pageSummary] := by
  rcases h1 : w.searchResp with e | status
  · simp [wikipedia_searchBody, h1]
  · by_cases hs : status = 200
    · rcases h2 : w.searchJson with e | hits
      · simp [wikipedia_searchBody, h1, h2, hs]
      · rcases hits with _ | ⟨top, rest⟩
        · simp [wikipedia_searchBody, h1, h2, hs]
        · rcases h3 : top.title with _ | t
          · simp [wikipedia_searchBody, h1, h2, h3, hs]
          · rcases h4 : w.summaryResp with e2 | st2
            · simp [wikipedia_searchBody, h1, h2, h3, h4, hs]
            · rcases h5 : w.summaryJson with e3 | sj <;> by_cases hs2 : st2 = 200
                <;> simp [wikipedia_searchBody, h1, h2, h3, h4, h5, hs, hs2]
    · simp [wikipedia_searchBody, h1, hs]

theorem wikipedia_search_reqs (w : WikiWorld) (q : String) :
    (wikipedia_search w q).2 = [Req.searchApi]
    ∨ (wikipedia_search w q).2 = [Req.searchApi, Req.pageSummary] := by
  rw [wikipedia_search_snd]
  exact wikipedia_searchBody_reqs w q

theorem countP_map_httpGet_http (l : List Req) :
    (l.map Event.httpGet).countP isHttpGet = l.length := by
  induction l with
  | nil => rfl
  | cons a t ih => simp [List.countP_cons, isHttpGet, ih]

theorem countP_map_httpGet_llm (l : List Req) :
    (l.map Event.httpGet).countP isLlmCall = 0 := by
  induction l with
  | nil => rfl
  | cons a t ih => simp [List.countP_cons, isLlmCall, ih]

/-! Claim theorems. -/

/-- C1, counterexample to the claim as stated: on the LLM response text
`"\nSEARCH"`, splitting the response text itself on newline characters gives
the first line `""`, which stripped is not `"SEARCH"`, and the split has two
lines; yet `decide_search_need` sets `needs_search := true` and sets the
reasoning from `"No reasoning provided"` — because the code strips the whole
response before splitting. -/
theorem C1_counterexample :
    (decide_search_need newlineSearchOracle test_initial_state).1.needs_search = true
    ∧ pyStrip ((pySplitNl "\nSEARCH").headD "") ≠ "SEARCH"
    ∧ 1 < (pySplitNl "\nSEARCH").length
    ∧ (decide_search_need newlineSearchOracle test_initial_state).1.reasoning
        = "Decision: SEARCH. Reasoning: No reasoning provided" := by
  decide

set_option maxRecDepth 8192 in
/-- C1, amended: `decide_search_need` first strips the whole response text of
leading and trailing whitespace and splits the stripped text on newline
characters; `needs_search` is true iff the first line of the stripped text,
itself stripped, equals exactly `"SEARCH"`, and the reasoning is taken from
the second line of the stripped text when the split yields more than one line
and from `"No reasoning provided"` otherwise; the parse performs no other
validation and succeeds on every response text. -/
theorem C1_decide_parse (o : Oracle) (s : AgentState) :
    ((decide_search_need o s).1.needs_search = true
      ↔ pyStrip ((pySplitNl (pyStrip (o.llm (decision_prompt s.user_question)))).headD "")
          = "SEARCH")
    ∧ (decide_search_need o s).1.reasoning
        = "Decision: "
          ++ pyStrip ((pySplitNl (pyStrip (o.llm (decision_prompt s.user_question)))).headD "")
          ++ ". Reasoning: "
          ++ (if 1 < (pySplitNl (pyStrip (o.llm (decision_prompt s.user_question)))).length
              then (pySplitNl (pyStrip (o.llm (decision_prompt s.user_question)))).getD 1 ""
              else "No reasoning provided") := by
  constructor
  · simp [decide_search_need]
  · rcases h : pySplitNl (pyStrip (o.llm (decision_prompt s.user_question))) with _ | ⟨a, tail⟩
    · simp [decide_search_need, h]
    · rcases tail with _ | ⟨b, t2⟩
      · simp [decide_search_need, h]
      · simp [decide_search_need, h]

/-- C2: any exception raised inside the body of `wikipedia_search` — a failed
HTTP call, a malformed body, a missing key — is caught by the single broad
`except` clause and converted to the string `"Search error: " ++ str(e)`,
which `execute_search` then stores in the state's `search_result` field; the
function never propagates an exception (in the embedding, it returns a
`String` for every world). -/
theorem C2_exception_to_string (o : Oracle) (s : AgentState) (e : String)
    (hs : s.needs_search = true)
    (he : (wikipedia_searchBody o.wiki s.user_question).1 = Except.error e) :
    (wikipedia_search o.wiki s.user_question).1 = "Search error: " ++ e
    ∧ (execute_search o s).1.search_result = "Search error: " ++ e := by
  have h1 : (wikipedia_search o.wiki s.user_question).1 = "Search error: " ++ e := by
    unfold wikipedia_search
    rcases hb : wikipedia_searchBody o.wiki s.user_question with ⟨r, reqs⟩
    rw [hb] at he
    dsimp at he
    subst he
    rfl
  refine ⟨h1, ?_⟩
  simp [execute_search, hs, h1]

/-- C2 witness: a world whose first GET raises `Connection timed out`. -/
theorem C2_exception_to_string_witness :
    (wikipedia_search failingOracle.wiki searchingState.user_question).1
        = "Search error: " ++ "Connection timed out"
    ∧ (execute_search failingOracle searchingState).1.search_result
        = "Search error: " ++ "Connection timed out" :=
  C2_exception_to_string failingOracle searchingState "Connection timed out" rfl rfl

/-- C3, counterexample to the claim as stated: in a run whose search step
actually searches and in which both Wikipedia calls succeed, the pipeline
issues two HTTP GETs, not exactly one. -/
theorem C3_counterexample :
    (simple_agent successOracle test_initial_state).1.needs_search = true
    ∧ (simple_agent successOracle test_initial_state).2.2.countP isHttpGet = 2
    ∧ (simple_agent successOracle test_initial_state).2.2.countP isHttpGet ≠ 1 := by
  decide

/-- C3, amended: every pipeline invocation performs exactly two LLM calls
(one in the decide step, one in the respond step); an invocation in which the
search step actually searches issues the HTTP GETs of `wikipedia_search`,
which are always at least one (the search API) and at most two (plus the page
summary); an invocation that does not search issues none. -/
theorem C3_llm_get_counts (o : Oracle) (s : AgentState) :
    ((simple_agent o s).2.2.countP isLlmCall = 2)
    ∧ ((simple_agent o s).2.2.countP isHttpGet
        = if (decide_search_need o s).1.needs_search
          then (wikipedia_search o.wiki s.user_question).2.length
          else 0)
    ∧ (1 ≤ (wikipedia_search o.wiki s.user_question).2.length
        ∧ (wikipedia_search o.wiki s.user_question).2.length ≤ 2) := by
  have htr : (simple_agent o s).2.2
      = (decide_search_need o s).2
          ++ ((execute_search o (decide_search_need o s).1).2
               ++ (generate_response o (execute_search o (decide_search_need o s).1).1).2) := by
    rw [simple_agent_eq]
  refine ⟨?_, ?_, ?_⟩
  · rw [htr]
    cases hb : (decide_search_need o s).1.needs_search
    · simp [execute_search, hb, decide_search_need_trace, generate_response_trace,
        List.countP_cons, List.countP_append, isLlmCall]
    · simp [execute_search, hb, decide_search_need_trace, generate_response_trace,
        List.countP_cons, List.countP_append, isLlmCall, countP_map_httpGet_llm]
  · rw [htr]
    cases hb : (decide_search_need o s).1.needs_search
    · simp [execute_search, hb, decide_search_need_trace, generate_response_trace,
        List.countP_cons, List.countP_append, isHttpGet]
    · simp [execute_search, hb, decide_search_need_trace, generate_response_trace,
        List.countP_cons, List.countP_append, isHttpGet, countP_map_httpGet_http,
        decide_search_need_user_question]
  · rcases wikipedia_search_reqs o.wiki s.user_question with h | h <;> simp [h]

/-- C4: invoking the compiled workflow is the sequential composition
`generate_response ∘ execute_search ∘ decide_search_need`: the nodes decide,
search, respond execute exactly once each, in that fixed order, on every run
(the node list is always `[decide, search, respond]`, with no branching at
the graph level), and running the graph with any larger fuel bound gives the
same result. -/
theorem C4_workflow_is_composition (o : Oracle) (s : AgentState) (k : Nat) :
    simple_agent o s
      = ((generate_response o (execute_search o (decide_search_need o s).1).1).1,
         [GNode.decide, GNode.search, GNode.respond],
         (decide_search_need o s).2
           ++ ((execute_search o (decide_search_need o s).1).2
                ++ (generate_response o (execute_search o (decide_search_need o s).1).1).2))
    ∧ runGraph o (k + 3) workflow_entry s = simple_agent o s :=
  ⟨simple_agent_eq o s, runGraph_three o k s⟩

/-- C5: within one call of `wikipedia_search` each HTTP request is attempted
at most once, in order, with no retry (the request list is always
`[searchApi]` or `[searchApi, pageSummary]`); a non-200 status on the search
API yields `"Wikipedia search failed with status <code>"` without issuing the
summary GET; an empty search list yields
`"No Wikipedia articles found for '<query>'"` without issuing the summary
GET; a non-200 status on the summary GET yields
`"Found '<title>' but couldn't retrieve summary"`. -/
theorem C5_single_attempt (q : String) :
    (∀ (w : WikiWorld),
        (wikipedia_search w q).2 = [Req.searchApi]
        ∨ (wikipedia_search w q).2 = [Req.searchApi, Req.pageSummary])
    ∧ (∀ (st : Nat) (j1 : Except String (List SearchHit)) (r2 : Except String Nat)
          (j2 : Except String PageSummary), st ≠ 200 →
        wikipedia_search
            { searchResp := .ok st, searchJson := j1, summaryResp := r2, summaryJson := j2 } q
          = ("Wikipedia search failed with status " ++ Nat.repr st, [Req.searchApi]))
    ∧ (∀ (r2 : Except String Nat) (j2 : Except String PageSummary),
        wikipedia_search
            { searchResp := .ok 200, searchJson := .ok [], summaryResp := r2, summaryJson := j2 } q
          = ("No Wikipedia articles found for '" ++ q ++ "'", [Req.searchApi]))
    ∧ (∀ (t : String) (rest : List SearchHit) (st2 : Nat) (j2 : Except String PageSummary),
        st2 ≠ 200 →
        wikipedia_search
            { searchResp := .ok 200, searchJson := .ok ({ title := some t } :: rest),
              summaryResp := .ok st2, summaryJson := j2 } q
          = ("Found '" ++ t ++ "' but couldn't retrieve summary",
             [Req.searchApi, Req.pageSummary])) := by
  refine ⟨fun w => wikipedia_search_reqs w q, ?_, fun r2 j2 => rfl, ?_⟩
  · intro st j1 r2 j2 hst
    simp [wikipedia_search, wikipedia_searchBody, hst]
  · intro t rest st2 j2 hst
    simp [wikipedia_search, wikipedia_searchBody, hst]

/-- C5 witness: a 503 on the search API, and a 403 on the summary GET. -/
theorem C5_single_attempt_witness :
    (wikipedia_search
        { searchResp := .ok 503, searchJson := .ok [], summaryResp := .ok 200,
          summaryJson := .ok { extract := none } } "Paris"
      = ("Wikipedia search failed with status " ++ Nat.repr 503, [Req.searchApi]))
    ∧ "Wikipedia search failed with status " ++ Nat.repr 503
        = "Wikipedia search failed with status 503"
    ∧ (wikipedia_search
        { searchResp := .ok 200, searchJson := .ok [{ title := some "Paris" }],
          summaryResp := .ok 403, summaryJson := .ok { extract := none } } "Paris"
      = ("Found 'Paris' but couldn't retrieve summary",
         [Req.searchApi, Req.pageSummary])) :=
  ⟨(C5_single_attempt "Paris").2.1 503 (.ok []) (.ok 200) (.ok { extract := none })
      (by decide),
   by decide,
   (C5_single_attempt "Paris").2.2.2 "Paris" [] 403 (.ok { extract := none }) (by decide)⟩

set_option maxRecDepth 8192 in
/-- C6: `generate_response` includes the search result in the prompt iff
`needs_search` is true and `search_result` does not contain the substring
`"Search error"`; when it does contain it, the prompt is built exactly as in
the no-search case, from the question alone.  The other failure strings, such
as `"Wikipedia search failed with status 503"`, do not contain that substring
and are therefore still included. -/
theorem C6_search_error_gating (o : Oracle) (s : AgentState) :
    (response_prompt s
      = if s.needs_search && !(pyContains "Search error" s.search_result)
        then response_prompt_with_search s.user_question s.search_result
        else response_prompt_direct s.user_question)
    ∧ (pyContains "Search error" s.search_result = true →
        response_prompt s = response_prompt_direct s.user_question)
    ∧ (generate_response o s).1.final_answer = o.llm (response_prompt s)
    ∧ pyContains "Search error" "Search error: Connection timed out" = true
    ∧ pyContains "Search error" "Wikipedia search failed with status 503" = false
    ∧ response_prompt
        { user_question := "q", needs_search := true,
          search_result := "Wikipedia search failed with status 503",
          final_answer := "", reasoning := "" }
        = response_prompt_with_search "q" "Wikipedia search failed with status 503" := by
  refine ⟨rfl, ?_, rfl, by decide, by decide, by decide⟩
  intro h
  simp [response_prompt, h]

set_option maxRecDepth 8192 in
/-- C6 witness: a state whose search result is a stringified exception is
answered from the question alone. -/
theorem C6_search_error_gating_witness :
    pyContains "Search error" "Search error: Connection timed out" = true
    ∧ response_prompt
        { user_question := "q", needs_search := true,
          search_result := "Search error: Connection timed out",
          final_answer := "", reasoning := "" }
        = response_prompt_direct "q" :=
  ⟨by decide,
   (C6_search_error_gating failingOracle
       { user_question := "q", needs_search := true,
         search_result := "Search error: Connection timed out",
         final_answer := "", reasoning := "" }).2.1 (by decide)⟩

/-- C7: each node writes only its own output fields and leaves every other
field unchanged — `decide_search_need` only `needs_search` and `reasoning`,
`execute_search` only `search_result`, `generate_response` only
`final_answer`; in particular `user_question` is never modified. -/
theorem C7_frame (o : Oracle) (s : AgentState) :
    ((decide_search_need o s).1.user_question = s.user_question
      ∧ (decide_search_need o s).1.search_result = s.search_result
      ∧ (decide_search_need o s).1.final_answer = s.final_answer)
    ∧ ((execute_search o s).1.user_question = s.user_question
      ∧ (execute_search o s).1.needs_search = s.needs_search
      ∧ (execute_search o s).1.final_answer = s.final_answer
      ∧ (execute_search o s).1.reasoning = s.reasoning)
    ∧ ((generate_response o s).1.user_question = s.user_question
      ∧ (generate_response o s).1.needs_search = s.needs_search
      ∧ (generate_response o s).1.search_result = s.search_result
      ∧ (generate_response o s).1.reasoning = s.reasoning) := by
  refine ⟨⟨rfl, rfl, rfl⟩, ?_, ⟨rfl, rfl, rfl, rfl⟩⟩
  cases hb : s.needs_search <;> simp [execute_search, hb]

/-- C8: the pipeline state is exactly the five typed fields
`user_question : String`, `needs_search : Bool`, `search_result : String`,
`final_answer : String`, `reasoning : String` — the tuple of the five fields
is in bijection with the state, and every state is rebuilt from them — and
each node maps a record of this shape to a record of this shape (the type of
the three node functions). -/
theorem C8_state_shape :
    Function.Bijective stateToTuple
    ∧ (∀ s : AgentState,
        s = { user_question := (stateToTuple s).1,
              needs_search := (stateToTuple s).2.1,
              search_result := (stateToTuple s).2.2.1,
              final_answer := (stateToTuple s).2.2.2.1,
              reasoning := (stateToTuple s).2.2.2.2 }) := by
  constructor
  · constructor
    · intro a b h
      cases a
      cases b
      simp only [stateToTuple, Prod.mk.injEq] at h
      obtain ⟨h1, h2, h3, h4, h5⟩ := h
      subst h1 h2 h3 h4 h5
      rfl
    · rintro ⟨q, b, r, a, re⟩
      exact ⟨⟨q, b, r, a, re⟩, rfl⟩
  · intro s
    cases s
    rfl

/-- C9: on the fully successful path (both GETs return 200, non-empty search
list, no exception), the result is exactly
`"Found information about '<title>': "` followed by the first at most 400
characters of the extract and the suffix `"..."`; when the summary body has
no `'extract'` key, `"No summary available"` takes the extract's place. -/
theorem C9_success_format (q t ext : String) (rest : List SearchHit) :
    (wikipedia_search
        { searchResp := .ok 200, searchJson := .ok ({ title := some t } :: rest),
          summaryResp := .ok 200, summaryJson := .ok { extract := some ext } } q
      = ("Found information about '" ++ t ++ "': " ++ pySlice ext 400 ++ "...",
         [Req.searchApi, Req.pageSummary]))
    ∧ (wikipedia_search
        { searchResp := .ok 200, searchJson := .ok ({ title := some t } :: rest),
          summaryResp := .ok 200, summaryJson := .ok { extract := none } } q
      = ("Found information about '" ++ t ++ "': "
           ++ pySlice "No summary available" 400 ++ "...",
         [Req.searchApi, Req.pageSummary]))
    ∧ (pySlice ext 400).length ≤ 400
    ∧ pySlice "No summary available" 400 = "No summary available" := by
  refine ⟨rfl, rfl, ?_, by decide⟩
  show (ext.data.take 400).length ≤ 400
  exact List.length_take_le 400 ext.data

end Langsmith

namespace Anchor

/-- C10: the browser-automation script performs exactly one session-creation
HTTP POST and at most one task submission; when the session response parses
and the AI agent's service worker is present, it submits exactly one task
carrying the single `task_configuration` (whose `prompt` is the one
natural-language instruction), and when the worker is absent it raises
`"AI agent not found in browser context"` before any task is issued; the
event list shows the local code performs no form-field interaction itself. -/
theorem C10_anchor_script (cdp i res : String) (ws : List String) :
    (anchor_script { sessionBody := some (cdp, i), serviceWorkers := ws, agentResult := res }
      = if ai_agent_url ∈ ws
        then (Except.ok res,
              [AnchorEvent.sessionPost, AnchorEvent.cdpConnect cdp,
               AnchorEvent.pageGoto resume_url, AnchorEvent.taskSubmit task_configuration])
        else (Except.error "AI agent not found in browser context",
              [AnchorEvent.sessionPost, AnchorEvent.cdpConnect cdp]))
    ∧ (anchor_script { sessionBody := none, serviceWorkers := ws, agentResult := res }
        = (Except.error "'data'", [AnchorEvent.sessionPost]))
    ∧ (∀ w : AnchorWorld,
        (anchor_script w).2.countP isSessionPost = 1
        ∧ (anchor_script w).2.countP isTaskSubmit ≤ 1) := by
  refine ⟨?_, rfl, ?_⟩
  · by_cases hc : ai_agent_url ∈ ws <;> simp [anchor_script, hc]
  · intro w
    rcases hw : w.sessionBody with _ | ⟨c, i2⟩
    · simp [anchor_script, hw, List.countP_cons, isSessionPost, isTaskSubmit]
    · by_cases hc : ai_agent_url ∈ w.serviceWorkers
        <;> simp [anchor_script, hw, hc, List.countP_cons, isSessionPost, isTaskSubmit]

end Anchor
